import Mathlib

/-!
Verification of the workstation CLI's local configuration logic, shallowly
embedded from `src/workstation/config.py` and `src/workstation/utils.py`:

* the local port allocator used by `ConfigManager.write_ssh_config`,
* the generated SSH stanza and its embedded tunnel ProxyCommand script,
* the YAML descriptor store (`write_configuration`, `read_configuration`,
  `delete_configuration`),
* the tunnel lifecycle of `sync_files_workstation`.

Environmental effects are made explicit:

* the bind probe `check_socket(host, port)` becomes a boolean oracle
  `free : Nat -> Bool` over port numbers (`free port = true` means the
  exclusive TCP bind on `port` succeeds, i.e. nothing is listening);
* the filesystem under `~/.workstations/configs` becomes two association
  lists keyed by workstation name: one for the `<name>.yml` YAML descriptor
  files and one for the `<name>.config` SSH stanza files;
* `yaml.dump` followed by `yaml.safe_load` of a dict with string keys and
  string values is modelled as the identity on association lists of string
  pairs (which it is for such dicts);
* a possible exception inside `generate_workstation_yml` (a disk error
  while dumping YAML) becomes a boolean oracle `writeOk`.
-/

/-- Errors raised by the embedded code: `NoPortFree` from the port
allocator, `FileNotFoundError` and `KeyError` from the descriptor store,
and an environmental write failure inside `generate_workstation_yml`. -/
inductive ConfigError where
  | noPortFree (msg : String)
  | fileNotFound (msg : String)
  | keyError (missingKeys : List String)
  | writeFailed
deriving DecidableEq

/-- Python `dict` lookup on an association list (first binding wins; the
store never creates duplicate keys, so this matches `dict` semantics). -/
def lookupKey (k : String) : List (String × α) → Option α
  | [] => none
  | (k2, v) :: rest => if k2 == k then some v else lookupKey k rest

/-- Remove every binding of key `k`; models overwriting a file (`open`
with mode `w`) and `Path.unlink`. -/
def removeKey (k : String) (l : List (String × α)) : List (String × α) :=
  l.filter (fun kv => kv.1 != k)

/-- The `ConfigManager` of `config.py`: its two directories are functions
of the home directory fixed in `__init__`. -/
structure ConfigManager where
  home : String
deriving DecidableEq

/-- Python: `self.workstation_data_dir = Path.home() / ".workstations"`. -/
def ConfigManager.workstation_data_dir (cm : ConfigManager) : String :=
  cm.home ++ "/.workstations"

/-- Python: `self.workstation_configs = self.workstation_data_dir / "configs"`. -/
def ConfigManager.workstation_configs (cm : ConfigManager) : String :=
  cm.workstation_data_dir ++ "/configs"

/-- The `WorkstationConfig` dataclass (field order as declared). -/
structure WorkstationConfig where
  name : String
  location : String
  cluster : String
  config : String
  project : String
deriving DecidableEq

/-- The YAML document produced by `yaml.dump(asdict(self), sort_keys=False)`
in `generate_workstation_yml`: the five fields in dataclass field order. -/
def WorkstationConfig.generate_workstation_yml (w : WorkstationConfig) :
    List (String × String) :=
  [("name", w.name), ("location", w.location), ("cluster", w.cluster),
    ("config", w.config), ("project", w.project)]

/-- Process state touched by the descriptor store: the `<name>.yml` files,
the `<name>.config` files (both keyed by workstation name, all living in
the configs directory), and the process's current working directory. -/
structure ProcState where
  yamlFiles : List (String × List (String × String))
  configFiles : List (String × String)
  cwd : String
deriving DecidableEq

/-- `ConfigManager.write_configuration`: record the caller's directory,
`os.chdir` into the configs directory, write `<name>.yml` there and return
its path; on an exception inside the `try` block (`writeOk = false`),
`os.chdir` back to the caller's directory and re-raise. On success the
working directory is left at the configs directory. -/
def write_configuration (cm : ConfigManager) (st : ProcState) (writeOk : Bool)
    (project name location cluster config : String) :
    ProcState × Except ConfigError String :=
  let current_dir := st.cwd
  let st1 : ProcState := { st with cwd := cm.workstation_configs }
  if writeOk then
    let workstation : WorkstationConfig :=
      { name := name, location := location, cluster := cluster,
        config := config, project := project }
    ({ st1 with yamlFiles :=
        (name, workstation.generate_workstation_yml) :: removeKey name st1.yamlFiles },
      Except.ok (cm.workstation_configs ++ "/" ++ name ++ ".yml"))
  else
    ({ st1 with cwd := current_dir }, Except.error ConfigError.writeFailed)

/-- The five required descriptor keys, in the order the source lists them. -/
def requiredKeys : List String := ["project", "name", "location", "cluster", "config"]

/-- `ConfigManager.read_configuration`: `FileNotFoundError` when
`<name>.yml` does not exist; otherwise load the YAML document and raise
`KeyError` listing the missing required keys unless all five are present. -/
def read_configuration (st : ProcState) (name : String) :
    Except ConfigError (List (String × String)) :=
  match lookupKey name st.yamlFiles with
  | none =>
      Except.error (ConfigError.fileNotFound
        ("Configuration " ++ name ++ " not found, please check if it exists."))
  | some contents =>
      if requiredKeys.all (fun key => (lookupKey key contents).isSome) then
        Except.ok contents
      else
        Except.error (ConfigError.keyError
          (requiredKeys.filter (fun key => (lookupKey key contents).isNone)))

/-- `ConfigManager.delete_configuration`: check that `<name>.config`
exists, then that `<name>.yml` exists — raising `FileNotFoundError` if
either is missing — and only then unlink both. -/
def delete_configuration (st : ProcState) (name : String) :
    ProcState × Except ConfigError Unit :=
  if (lookupKey name st.configFiles).isNone then
    (st, Except.error (ConfigError.fileNotFound ("Configuration " ++ name ++ " not found")))
  else if (lookupKey name st.yamlFiles).isNone then
    (st, Except.error (ConfigError.fileNotFound ("Configuration " ++ name ++ " not found")))
  else
    (⟨removeKey name st.yamlFiles, removeKey name st.configFiles, st.cwd⟩,
      Except.ok ())

/-- The starting candidate of `write_ssh_config`'s port scan: 6000 when no
existing stanza claims a port, otherwise `max(ports) + 1` (Python `max`
of a nonempty list is the fold of binary `max` over it). -/
def sshBasePort (ports : List Nat) : Nat :=
  match ports with
  | [] => 6000
  | p :: ps => ps.foldl Nat.max p + 1

/-- The bounded probe loop shared by `write_ssh_config` and
`sync_files_workstation` (`for _ in range(20): if check_socket(...): break;
port += 1; else: raise NoPortFree`): probe `fuel` consecutive candidates
starting at `port`, returning the first one whose bind probe succeeds. -/
def findFreePort (free : Nat → Bool) : Nat → Nat → Option Nat
  | 0, _ => none
  | fuel + 1, port => if free port then some port else findFreePort free fuel (port + 1)

/-- The `proxy_command` string of `write_ssh_config`, chunk for chunk.
Apostrophes and braces are written with their `\x` escapes; the string
content is byte-identical to the Python source. -/
def proxy_command (project cluster config region : String) : String :=
  "sh -c \x27" ++
  "cleanup() \x7b pkill -P $$; \x7d; " ++
  "trap cleanup EXIT; " ++
  "gcloud workstations start-tcp-tunnel " ++
  "--project=" ++ project ++ " " ++
  "--cluster=" ++ cluster ++ " " ++
  "--config=" ++ config ++ " " ++
  "--region=" ++ region ++ " " ++
  "--local-host-port=localhost:%p %h 22 & " ++
  "timeout=10; " ++
  "while ! nc -z localhost %p; do " ++
  "sleep 1; " ++
  "timeout=$((timeout - 1)); " ++
  "if [ $timeout -le 0 ]; then " ++
  "exit 1; " ++
  "fi; " ++
  "done; " ++
  "nc localhost %p\x27"

/-- The `config_content` stanza of `write_ssh_config`, after `dedent`
(margin of 12 spaces, fixed by the template literal) and `.strip()` have
been resolved on the template. -/
def sshConfigContent (name user : String) (port : Nat) (proxy : String) : String :=
  "Host " ++ name ++
  "\n    HostName " ++ name ++
  "\n    Port " ++ Nat.repr port ++
  "\n    User " ++ user ++
  "\n    StrictHostKeyChecking no" ++
  "\n    UserKnownHostsFile /dev/null" ++
  "\n    ControlMaster auto" ++
  "\n    ControlPersist 30m" ++
  "\n    ControlPath ~/.ssh/cm/%r@%h:%p" ++
  "\n    ProxyCommand " ++ proxy

/-- `ConfigManager.write_ssh_config`, given the list of ports claimed by
the existing `*.config` stanzas (one regex match per file) and the bind
probe oracle: allocate a port with the 20-attempt scan starting at
`sshBasePort ports`, raising `NoPortFree` when the scan is exhausted, and
otherwise emit the stanza written to `<name>.config`. -/
def write_ssh_config (ports : List Nat) (free : Nat → Bool)
    (name user project cluster config region : String) :
    Except ConfigError (Nat × String) :=
  match findFreePort free 20 (sshBasePort ports) with
  | none =>
      Except.error (ConfigError.noPortFree
        "Could not find a free port after checking 20 ports.")
  | some port =>
      Except.ok (port,
        sshConfigContent name user port (proxy_command project cluster config region))

/-- The readiness loop embedded in the ProxyCommand shell script
(`timeout=10; while ! nc -z localhost %p; do sleep 1;
timeout=$((timeout - 1)); if [ $timeout -le 0 ]; then exit 1; fi; done`):
`reach t` is the result of the `nc -z` probe at the `t`-th check; the
result is `true` when the script falls through to `nc localhost %p` and
`false` when it runs `exit 1`. The `timeout` argument is the current value
of the shell countdown variable. -/
def proxyWaitGo (reach : Nat → Bool) (t timeout : Nat) : Bool :=
  if reach t then true
  else
    match timeout with
    | 0 => false
    | 1 => false
    | k + 2 => proxyWaitGo reach (t + 1) (k + 1)

/-- The embedded script's poll phase, started with the countdown at 10. -/
def proxyWait (reach : Nat → Bool) : Bool :=
  proxyWaitGo reach 0 10

/-- One step of `sync_files_workstation` after port allocation, in
chronological order: spawn the tunnel subprocess, run the bounded
bindability wait loop, run rsync, kill the tunnel subprocess. -/
inductive SyncEvent where
  | spawnTunnel (port : Nat)
  | waitReady (sleeps : Nat)
  | runRsync (port : Nat)
  | killTunnel
deriving DecidableEq

/-- Outcome of a successful `sync_files_workstation` run: the tunnel port,
how many one-second sleeps the readiness loop performed, and the lifecycle
events in order. -/
structure SyncResult where
  port : Nat
  sleeps : Nat
  events : List SyncEvent
deriving DecidableEq

/-- The readiness loop of `sync_files_workstation` (`counter = 0; while
check_socket("localhost", port): if counter >= 10: break; time.sleep(1);
counter += 1`): `bindable k` is the result of the `check_socket` call made
when `counter = k`; the returned value is the final counter, which equals
the number of `sleep(1)` calls. The `fuel` argument is a termination
witness only: the `counter >= 10` break bounds the loop to 11 checks, so
with `fuel = 11` the `0` case is never reached (see
`syncWaitGo_fuel_stable`). -/
def syncWaitGo (bindable : Nat → Bool) : Nat → Nat → Nat
  | counter, 0 => counter
  | counter, fuel + 1 =>
    if bindable counter then
      if 10 ≤ counter then counter
      else syncWaitGo bindable (counter + 1) fuel
    else counter

/-- The readiness wait of `sync_files_workstation`, started at counter 0. -/
def syncWait (bindable : Nat → Bool) : Nat :=
  syncWaitGo bindable 0 11

/-- `sync_files_workstation` of `utils.py`: allocate a tunnel port with the
20-attempt scan starting at 61000 (raising `NoPortFree` on exhaustion),
spawn the `gcloud workstations start-tcp-tunnel` subprocess, wait for the
port to stop being bindable (at most 10 one-second sleeps), run the rsync
command over the tunnel, then kill the tunnel subprocess. The string
arguments only parametrise the spawned command lines; the lifecycle is
recorded in the returned event list. -/
def sync_files_workstation (free bindable : Nat → Bool)
    (project name location cluster config source destination : String) :
    Except ConfigError SyncResult :=
  match findFreePort free 20 61000 with
  | none =>
      Except.error (ConfigError.noPortFree
        "Could not find a free port after checking 20 ports.")
  | some port =>
      let sleeps := syncWait bindable
      Except.ok ⟨port, sleeps,
        [SyncEvent.spawnTunnel port, SyncEvent.waitReady sleeps,
          SyncEvent.runRsync port, SyncEvent.killTunnel]⟩

/-- Substring containment, used to state what the generated stanza holds. -/
def strContains (s sub : String) : Prop :=
  ∃ pre post, s = pre ++ sub ++ post

/-- The probe loop returns `none` exactly when every one of the `fuel`
consecutive candidates fails the bind probe. -/
theorem findFreePort_eq_none_iff (free : Nat → Bool) :
    ∀ fuel start, findFreePort free fuel start = none ↔
      ∀ i, i < fuel → free (start + i) = false := by
  intro fuel
  induction fuel with
  | zero => intro start; simp [findFreePort]
  | succ n ih =>
    intro start
    by_cases hf : free start = true
    · simp only [findFreePort, hf, if_pos]
      constructor
      · intro h; cases h
      · intro h
        have h0 := h 0 (by omega)
        simp only [Nat.add_zero] at h0
        rw [hf] at h0; cases h0
    · have hf' : free start = false := by
        cases h : free start
        · rfl
        · exact absurd h hf
      simp only [findFreePort, hf', if_neg, Bool.false_eq_true, not_false_iff]
      rw [ih (start + 1)]
      constructor
      · intro h i hi
        match i, hi with
        | 0, _ => simpa using hf'
        | j + 1, hj =>
          have := h j (by omega)
          have harr : start + 1 + j = start + (j + 1) := by omega
          rw [harr] at this
          exact this
      · intro h i hi
        have := h (i + 1) (by omega)
        have harr : start + (i + 1) = start + 1 + i := by omega
        rw [harr] at this
        exact this

/-- When the probe loop returns a port, that port is the first candidate
in the scanned window whose bind probe succeeds. -/
theorem findFreePort_eq_some (free : Nat → Bool) :
    ∀ fuel start p, findFreePort free fuel start = some p →
      ∃ i, i < fuel ∧ p = start + i ∧ free p = true ∧
        ∀ j, j < i → free (start + j) = false := by
  intro fuel
  induction fuel with
  | zero => intro start p h; cases h
  | succ n ih =>
    intro start p h
    by_cases hf : free start = true
    · simp only [findFreePort, hf, if_pos] at h
      cases h
      exact ⟨0, by omega, by omega, hf, by intro j hj; omega⟩
    · have hf' : free start = false := by
        cases hc : free start
        · rfl
        · exact absurd hc hf
      simp only [findFreePort, hf', Bool.false_eq_true, if_neg, not_false_iff] at h
      obtain ⟨i, hi, hp, hfree, hmin⟩ := ih (start + 1) p h
      refine ⟨i + 1, by omega, by omega, hfree, ?_⟩
      intro j hj
      match j, hj with
      | 0, _ => simpa using hf'
      | k + 1, hk =>
        have := hmin k (by omega)
        have harr : start + 1 + k = start + (k + 1) := by omega
        rw [harr] at this
        exact this

/-- The fold of binary max dominates its accumulator. -/
theorem le_foldl_max : ∀ (ps : List Nat) (p : Nat), p ≤ ps.foldl Nat.max p := by
  intro ps
  induction ps with
  | nil => intro p; exact Nat.le_refl p
  | cons q ps ih =>
    intro p
    calc p ≤ Nat.max p q := Nat.le_max_left p q
    _ ≤ (ps.foldl Nat.max (Nat.max p q)) := ih (Nat.max p q)

/-- The fold of binary max dominates every list element. -/
theorem mem_le_foldl_max : ∀ (ps : List Nat) (p q : Nat), q ∈ ps →
    q ≤ ps.foldl Nat.max p := by
  intro ps
  induction ps with
  | nil => intro p q hq; cases hq
  | cons r ps ih =>
    intro p q hq
    rcases List.mem_cons.mp hq with h | h
    · subst h
      calc q ≤ Nat.max p q := Nat.le_max_right p q
      _ ≤ ps.foldl Nat.max (Nat.max p q) := le_foldl_max ps (Nat.max p q)
    · exact ih (Nat.max p r) q h

/-- The fold of binary max is the accumulator or one of the elements. -/
theorem foldl_max_mem : ∀ (ps : List Nat) (p : Nat),
    ps.foldl Nat.max p = p ∨ ps.foldl Nat.max p ∈ ps := by
  intro ps
  induction ps with
  | nil => intro p; exact Or.inl rfl
  | cons q ps ih =>
    intro p
    have hstep : List.foldl Nat.max p (q :: ps) = List.foldl Nat.max (Nat.max p q) ps := rfl
    rcases ih (Nat.max p q) with h | h
    · rcases Nat.le_total p q with hle | hle
      · have hm : p.max q = q := Nat.max_eq_right hle
        right; rw [hstep, h, hm]; exact List.mem_cons_self q ps
      · have hm : p.max q = p := Nat.max_eq_left hle
        left; rw [hstep, h]; exact hm
    · right; rw [hstep]; exact List.mem_cons_of_mem q h

/-- Every claimed port lies strictly below the scan's starting candidate. -/
theorem mem_lt_sshBasePort (ports : List Nat) (q : Nat) (hq : q ∈ ports) :
    q < sshBasePort ports := by
  match ports, hq with
  | p :: ps, hq =>
    rcases List.mem_cons.mp hq with h | h
    · subst h
      have := le_foldl_max ps q
      simp only [sshBasePort]
      omega
    · have := mem_le_foldl_max ps p q h
      simp only [sshBasePort]
      omega

/-- With at least one claimed port, the starting candidate is the
successor of one of the claimed ports (the maximum). -/
theorem sshBasePort_eq_succ_mem (ports : List Nat) (hne : ports ≠ []) :
    ∃ q ∈ ports, sshBasePort ports = q + 1 := by
  match ports, hne with
  | p :: ps, _ =>
    rcases foldl_max_mem ps p with h | h
    · exact ⟨p, List.mem_cons_self p ps, by simp only [sshBasePort, h]⟩
    · exact ⟨ps.foldl Nat.max p, List.mem_cons_of_mem p h, rfl⟩

/-- Looking up the key just removed yields nothing. -/
theorem lookupKey_removeKey_self (k : String) (l : List (String × α)) :
    lookupKey k (removeKey k l) = none := by
  induction l with
  | nil => rfl
  | cons kv rest ih =>
    by_cases h : kv.1 = k
    · simpa [removeKey, h] using ih
    · have hb : (kv.1 != k) = true := by simp [h]
      have hb2 : (kv.1 == k) = false := by simp [h]
      simp only [removeKey, List.filter] at ih ⊢
      rw [hb]
      simp only [lookupKey, hb2]
      exact ih

/-- Removing one key leaves lookups of every other key unchanged. -/
theorem lookupKey_removeKey_other (k m : String) (l : List (String × α))
    (hmk : m ≠ k) : lookupKey m (removeKey k l) = lookupKey m l := by
  induction l with
  | nil => rfl
  | cons kv rest ih =>
    by_cases h : kv.1 = k
    · have hb : (kv.1 != k) = false := by simp [h]
      have hb2 : (kv.1 == m) = false := by
        simp only [beq_eq_false_iff_ne, ne_eq]
        intro hc; exact hmk (by rw [← hc, h])
      simp only [removeKey, List.filter] at ih ⊢
      rw [hb]
      simp only [lookupKey, hb2]
      exact ih
    · have hb : (kv.1 != k) = true := by simp [h]
      simp only [removeKey, List.filter] at ih ⊢
      rw [hb]
      by_cases hm : kv.1 = m
      · simp only [lookupKey, hm, beq_self_eq_true, if_pos]
      · have hb2 : (kv.1 == m) = false := by simp [hm]
        simp only [lookupKey, hb2]
        exact ih

/-- With duplicate-free keys, a successful lookup is the unique binding. -/
theorem lookupKey_nodup_unique (k : String) (v v2 : List (String × String)) :
    ∀ l : List (String × List (String × String)),
      (l.map Prod.fst).Nodup → lookupKey k l = some v → (k, v2) ∈ l → v2 = v := by
  intro l
  induction l with
  | nil => intro _ _ hm; cases hm
  | cons kv rest ih =>
    intro hnd hl hm
    have hmap : List.map Prod.fst (kv :: rest) = kv.1 :: List.map Prod.fst rest := rfl
    rw [hmap] at hnd
    have hnd2 := List.nodup_cons.mp hnd
    rcases List.mem_cons.mp hm with h | h
    · have hk : kv.1 = k := by rw [← h]
      simp only [lookupKey, hk, beq_self_eq_true, if_pos, Option.some.injEq] at hl
      have : v2 = kv.2 := by rw [← h]
      rw [this, hl]
    · by_cases hk : kv.1 = k
      · exfalso
        have : k ∈ rest.map Prod.fst := by
          exact List.mem_map.mpr ⟨(k, v2), h, rfl⟩
        rw [hk] at hnd2
        exact hnd2.1 this
      · have hb : (kv.1 == k) = false := by simp [hk]
        simp only [lookupKey, hb] at hl
        exact ih hnd2.2 hl h

/-- The sync readiness loop's counter never exceeds 10 (the `break`). -/
theorem syncWaitGo_le : ∀ (bindable : Nat → Bool) (fuel counter : Nat),
    counter ≤ 10 → syncWaitGo bindable counter fuel ≤ 10 := by
  intro bindable fuel
  induction fuel with
  | zero => intro counter h; simpa [syncWaitGo] using h
  | succ n ih =>
    intro counter h
    by_cases hb : bindable counter = true
    · by_cases hc : 10 ≤ counter
      · simp only [syncWaitGo, hb, if_pos, hc]
        exact h
      · have hcl : counter + 1 ≤ 10 := by omega
        simp only [syncWaitGo, hb, if_pos, hc, if_neg]
        exact ih (counter + 1) hcl
    · have hb' : bindable counter = false := by
        cases hx : bindable counter
        · rfl
        · exact absurd hx hb
      simp only [syncWaitGo, hb', Bool.false_eq_true, if_neg, not_false_iff]
      exact h

/-- Any fuel of at least `11 - counter` gives the same result as the
source's unbounded `while` loop: the fuel case is unreachable, so the
result is fuel-independent from 11 on. -/
theorem syncWaitGo_fuel_stable : ∀ (bindable : Nat → Bool) (fuel counter : Nat),
    11 - counter ≤ fuel →
    syncWaitGo bindable counter fuel = syncWaitGo bindable counter (fuel + 1) := by
  intro bindable fuel
  induction fuel with
  | zero =>
    intro counter h
    have hc : 10 ≤ counter := by omega
    by_cases hb : bindable counter = true
    · simp [syncWaitGo, hb, hc]
    · have hb' : bindable counter = false := by
        cases hx : bindable counter
        · rfl
        · exact absurd hx hb
      simp [syncWaitGo, hb']
  | succ n ih =>
    intro counter h
    by_cases hb : bindable counter = true
    · by_cases hc : 10 ≤ counter
      · simp [syncWaitGo, hb, hc]
      · have := ih (counter + 1) (by omega)
        simp only [syncWaitGo, hb, if_pos, hc, if_neg]
        exact this
    · have hb' : bindable counter = false := by
        cases hx : bindable counter
        · rfl
        · exact absurd hx hb
      simp [syncWaitGo, hb']

/-- If the port never becomes reachable, the embedded script's poll loop
runs down its countdown and takes the `exit 1` branch. -/
theorem proxyWaitGo_false : ∀ (reach : Nat → Bool) (timeout t : Nat),
    (∀ u, reach u = false) → proxyWaitGo reach t timeout = false := by
  intro reach timeout
  induction timeout using Nat.strong_induction_on with
  | _ timeout ih =>
    intro t hr
    match timeout with
    | 0 => simp [proxyWaitGo, hr t]
    | 1 => simp [proxyWaitGo, hr t]
    | k + 2 =>
      simp only [proxyWaitGo, hr t, Bool.false_eq_true, if_neg, not_false_iff]
      exact ih (k + 1) (by omega) (t + 1) hr

/-- Successful `write_ssh_config` runs come from a successful probe scan:
the returned pair is the found port together with the stanza built on it. -/
theorem write_ssh_config_ok_elim (ports : List Nat) (free : Nat → Bool)
    (name user project cluster config region : String) (pc : Nat × String)
    (h : write_ssh_config ports free name user project cluster config region =
      Except.ok pc) :
    findFreePort free 20 (sshBasePort ports) = some pc.1 ∧
    pc = (pc.1, sshConfigContent name user pc.1
      (proxy_command project cluster config region)) := by
  cases hf : findFreePort free 20 (sshBasePort ports) with
  | none =>
    have hw : write_ssh_config ports free name user project cluster config region =
        Except.error (ConfigError.noPortFree
          "Could not find a free port after checking 20 ports.") := by
      unfold write_ssh_config; rw [hf]
    rw [hw] at h; cases h
  | some p =>
    have hw : write_ssh_config ports free name user project cluster config region =
        Except.ok (p, sshConfigContent name user p
          (proxy_command project cluster config region)) := by
      unfold write_ssh_config; rw [hf]
    rw [hw] at h
    cases h
    exact ⟨rfl, rfl⟩

/-- C1: `write_ssh_config` starts its port scan at `max(claimed ports) + 1`
(6000 when no port is claimed), probes candidates in increasing order with
the bind test, accepting the first free one, and raises `NoPortFree`
exactly when all 20 consecutive candidates starting at the base fail. -/
theorem write_ssh_config_port_scan (ports : List Nat) (free : Nat → Bool)
    (name user project cluster config region : String) :
    (ports = [] → sshBasePort ports = 6000) ∧
    (∀ q ∈ ports, q < sshBasePort ports) ∧
    (ports ≠ [] → ∃ q ∈ ports, sshBasePort ports = q + 1) ∧
    (write_ssh_config ports free name user project cluster config region =
        Except.error (ConfigError.noPortFree
          "Could not find a free port after checking 20 ports.") ↔
      ∀ i, i < 20 → free (sshBasePort ports + i) = false) ∧
    (∀ pc, write_ssh_config ports free name user project cluster config region =
        Except.ok pc →
      ∃ i, i < 20 ∧ pc.1 = sshBasePort ports + i ∧ free pc.1 = true ∧
        ∀ j, j < i → free (sshBasePort ports + j) = false) := by
  refine ⟨?_, ?_, ?_, ?_, ?_⟩
  · intro h; rw [h]; rfl
  · intro q hq; exact mem_lt_sshBasePort ports q hq
  · intro h; exact sshBasePort_eq_succ_mem ports h
  · cases hf : findFreePort free 20 (sshBasePort ports) with
    | none =>
      have hw : write_ssh_config ports free name user project cluster config region =
          Except.error (ConfigError.noPortFree
            "Could not find a free port after checking 20 ports.") := by
        unfold write_ssh_config; rw [hf]
      rw [hw]
      simp only [true_iff]
      exact (findFreePort_eq_none_iff free 20 (sshBasePort ports)).mp hf
    | some p =>
      have hw : write_ssh_config ports free name user project cluster config region =
          Except.ok (p, sshConfigContent name user p
            (proxy_command project cluster config region)) := by
        unfold write_ssh_config; rw [hf]
      rw [hw]
      constructor
      · intro h; cases h
      · intro h
        have := (findFreePort_eq_none_iff free 20 (sshBasePort ports)).mpr h
        rw [hf] at this; cases this
  · intro pc h
    have he := write_ssh_config_ok_elim ports free name user project cluster config
      region pc h
    exact findFreePort_eq_some free 20 (sshBasePort ports) pc.1 he.1

/-- Witness for C1 at a concrete input: with claimed ports 6000 and 6004
the scan starts at 6005, and with only port 6007 free it allocates 6007
as the third candidate probed. -/
theorem write_ssh_config_port_scan_witness :
    write_ssh_config [6000, 6004] (fun p => p == 6007) "ws1" "u" "p" "c" "cfg" "r" =
      Except.ok (6007, sshConfigContent "ws1" "u" 6007
        (proxy_command "p" "c" "cfg" "r")) ∧
    (∃ i, i < 20 ∧
      (6007, sshConfigContent "ws1" "u" 6007
        (proxy_command "p" "c" "cfg" "r")).1 = sshBasePort [6000, 6004] + i ∧
      (fun p => p == 6007) (6007, sshConfigContent "ws1" "u" 6007
        (proxy_command "p" "c" "cfg" "r")).1 = true ∧
      ∀ j, j < i → (fun p => p == 6007) (sshBasePort [6000, 6004] + j) = false) :=
  ⟨rfl,
    (write_ssh_config_port_scan [6000, 6004] (fun p => p == 6007)
      "ws1" "u" "p" "c" "cfg" "r").2.2.2.2
      (6007, sshConfigContent "ws1" "u" 6007 (proxy_command "p" "c" "cfg" "r")) rfl⟩

/-- C2: a successfully allocated port is none of the already claimed ones
and passed the bind probe when it was chosen. -/
theorem write_ssh_config_port_not_claimed (ports : List Nat) (free : Nat → Bool)
    (name user project cluster config region : String) (pc : Nat × String)
    (h : write_ssh_config ports free name user project cluster config region =
      Except.ok pc) :
    pc.1 ∉ ports ∧ free pc.1 = true := by
  have he := write_ssh_config_ok_elim ports free name user project cluster config
    region pc h
  obtain ⟨i, _, hp, hfree, _⟩ :=
    findFreePort_eq_some free 20 (sshBasePort ports) pc.1 he.1
  refine ⟨?_, hfree⟩
  intro hmem
  have := mem_lt_sshBasePort ports pc.1 hmem
  omega

/-- Witness for C2 at a concrete input: with port 6000 claimed and every
port free, the allocation returns 6001, which is fresh and bindable. -/
theorem write_ssh_config_port_not_claimed_witness :
    write_ssh_config [6000] (fun _ => true) "ws1" "u" "p" "c" "cfg" "r" =
      Except.ok (6001, sshConfigContent "ws1" "u" 6001
        (proxy_command "p" "c" "cfg" "r")) ∧
    ((6001 : Nat), sshConfigContent "ws1" "u" 6001
        (proxy_command "p" "c" "cfg" "r")).1 ∉ [(6000 : Nat)] ∧
    (fun _ => true) ((6001 : Nat), sshConfigContent "ws1" "u" 6001
        (proxy_command "p" "c" "cfg" "r")).1 = true :=
  ⟨rfl,
    write_ssh_config_port_not_claimed [6000] (fun _ => true)
      "ws1" "u" "p" "c" "cfg" "r"
      (6001, sshConfigContent "ws1" "u" 6001 (proxy_command "p" "c" "cfg" "r")) rfl⟩

/-- After a successful `write_configuration`, the name maps to the fresh
five-field document in the YAML store. -/
theorem write_configuration_lookup (cm : ConfigManager) (st : ProcState)
    (project name location cluster config : String) :
    lookupKey name
      ((write_configuration cm st true project name location cluster config).1.yamlFiles) =
      some [("name", name), ("location", location), ("cluster", cluster),
        ("config", config), ("project", project)] := by
  simp [write_configuration, lookupKey, WorkstationConfig.generate_workstation_yml]

/-- When the descriptor file exists, `read_configuration` reduces to the
five-key check on its contents. -/
theorem read_configuration_eq_ite (st : ProcState) (n : String)
    (contents : List (String × String))
    (hl : lookupKey n st.yamlFiles = some contents) :
    read_configuration st n =
      if requiredKeys.all (fun key => (lookupKey key contents).isSome) then
        Except.ok contents
      else
        Except.error (ConfigError.keyError
          (requiredKeys.filter (fun key => (lookupKey key contents).isNone))) := by
  unfold read_configuration
  rw [hl]

/-- A successful `read_configuration` returns exactly the stored document,
and that document passed the five-key check. -/
theorem read_configuration_ok_elim (st : ProcState) (n : String)
    (d : List (String × String)) (h : read_configuration st n = Except.ok d) :
    lookupKey n st.yamlFiles = some d ∧
    requiredKeys.all (fun key => (lookupKey key d).isSome) = true := by
  cases hl : lookupKey n st.yamlFiles with
  | none =>
    have hr : read_configuration st n = Except.error (ConfigError.fileNotFound
        ("Configuration " ++ n ++ " not found, please check if it exists.")) := by
      unfold read_configuration; rw [hl]
    rw [hr] at h; cases h
  | some contents =>
    by_cases hall : requiredKeys.all (fun key => (lookupKey key contents).isSome) = true
    · have hr : read_configuration st n = Except.ok contents := by
        rw [read_configuration_eq_ite st n contents hl, if_pos hall]
      rw [hr] at h
      cases h
      exact ⟨rfl, hall⟩
    · have hr : read_configuration st n = Except.error (ConfigError.keyError
          (requiredKeys.filter (fun key => (lookupKey key contents).isNone))) := by
        rw [read_configuration_eq_ite st n contents hl, if_neg hall]
      rw [hr] at h; cases h

/-- C3: writing a descriptor with `write_configuration` and reading it
back with `read_configuration` for the same name returns a mapping whose
project, name, location, cluster and config values are the ones written. -/
theorem write_read_configuration_roundtrip (cm : ConfigManager) (st : ProcState)
    (project name location cluster config : String) :
    ∃ d, read_configuration
        (write_configuration cm st true project name location cluster config).1 name =
        Except.ok d ∧
      lookupKey "project" d = some project ∧
      lookupKey "name" d = some name ∧
      lookupKey "location" d = some location ∧
      lookupKey "cluster" d = some cluster ∧
      lookupKey "config" d = some config := by
  refine ⟨[("name", name), ("location", location), ("cluster", cluster),
    ("config", config), ("project", project)], ?_, rfl, rfl, rfl, rfl, rfl⟩
  have hl := write_configuration_lookup cm st project name location cluster config
  rw [read_configuration_eq_ite _ name _ hl]
  rfl

/-- The store used in the C4 witness: the descriptor file for `ws` exists
but holds only the `project` key. -/
def stMissing : ProcState :=
  ⟨[("ws", [("project", "p")])], [], "/"⟩

/-- C4 (amended): for an existing descriptor file, `read_configuration`
raises `KeyError` exactly when at least one of the five required keys is
absent, and the error enumerates exactly the missing keys, in the fixed
order project, name, location, cluster, config; a file containing at
least the five keys is accepted — extra keys are not rejected. -/
theorem read_configuration_missing_keys (st : ProcState) (name : String)
    (contents : List (String × String))
    (h : lookupKey name st.yamlFiles = some contents) :
    ((∃ missing, read_configuration st name =
        Except.error (ConfigError.keyError missing)) ↔
      ∃ key ∈ requiredKeys, (lookupKey key contents).isSome = false) ∧
    (∀ missing, read_configuration st name =
        Except.error (ConfigError.keyError missing) →
      missing = requiredKeys.filter (fun key => (lookupKey key contents).isNone)) ∧
    ((∀ key ∈ requiredKeys, (lookupKey key contents).isSome = true) →
      read_configuration st name = Except.ok contents) := by
  by_cases hall : requiredKeys.all (fun key => (lookupKey key contents).isSome) = true
  · have hr : read_configuration st name = Except.ok contents := by
      rw [read_configuration_eq_ite st name contents h, if_pos hall]
    refine ⟨?_, ?_, fun _ => hr⟩
    · constructor
      · intro hmiss
        obtain ⟨missing, hm⟩ := hmiss
        rw [hr] at hm; cases hm
      · intro hkey
        obtain ⟨key, hk, hfalse⟩ := hkey
        have := List.all_eq_true.mp hall key hk
        rw [hfalse] at this; cases this
    · intro missing hm
      rw [hr] at hm; cases hm
  · have hr : read_configuration st name = Except.error (ConfigError.keyError
        (requiredKeys.filter (fun key => (lookupKey key contents).isNone))) := by
      rw [read_configuration_eq_ite st name contents h, if_neg hall]
    refine ⟨?_, ?_, ?_⟩
    · constructor
      · intro _
        have hnall := hall
        rw [List.all_eq_true] at hnall
        push_neg at hnall
        obtain ⟨key, hk, hne⟩ := hnall
        exact ⟨key, hk, by simpa using hne⟩
      · intro _
        exact ⟨requiredKeys.filter (fun key => (lookupKey key contents).isNone), hr⟩
    · intro missing hm
      rw [hr] at hm
      cases hm
      rfl
    · intro hkeys
      exfalso
      exact hall (List.all_eq_true.mpr hkeys)

/-- Witness for C4 (amended) at a concrete input: a descriptor holding
only `project` is rejected with exactly the other four keys enumerated,
in order. -/
theorem read_configuration_missing_keys_witness :
    read_configuration stMissing "ws" =
      Except.error (ConfigError.keyError ["name", "location", "cluster", "config"]) ∧
    ["name", "location", "cluster", "config"] =
      requiredKeys.filter (fun key => (lookupKey key [("project", "p")]).isNone) :=
  ⟨rfl,
    (read_configuration_missing_keys stMissing "ws" [("project", "p")] rfl).2.1
      ["name", "location", "cluster", "config"] rfl⟩

/-- Counterexample to C4 as stated: a descriptor file carrying a sixth
key, `owner`, is accepted by `read_configuration`, so the file is not
required to contain exactly the five descriptor keys. -/
theorem read_configuration_extra_key_accepted :
    read_configuration
      ⟨[("ws", [("project", "p"), ("name", "ws"), ("location", "l"),
        ("cluster", "c"), ("config", "cfg"), ("owner", "alice")])], [], "/"⟩ "ws" =
      Except.ok [("project", "p"), ("name", "ws"), ("location", "l"),
        ("cluster", "c"), ("config", "cfg"), ("owner", "alice")] ∧
    "owner" ∉ requiredKeys ∧
    ([("project", "p"), ("name", "ws"), ("location", "l"),
      ("cluster", "c"), ("config", "cfg"), ("owner", "alice")].map Prod.fst).length = 6 :=
  ⟨rfl, by decide, rfl⟩

/-- C8 (amended): every descriptor stored by `write_configuration` holds
all five required keys; every descriptor returned by `read_configuration`
holds all five required keys and is the value the name maps to; with
duplicate-free file names, a lookup by name resolves to exactly one
stored descriptor or the read fails. (Non-emptiness of the field values
is not enforced by the code.) -/
theorem descriptor_store_invariant (cm : ConfigManager) (st : ProcState)
    (project name location cluster config : String) :
    (∃ d, lookupKey name
        ((write_configuration cm st true project name location cluster config).1.yamlFiles) =
        some d ∧ ∀ key ∈ requiredKeys, (lookupKey key d).isSome = true) ∧
    (∀ st2 : ProcState, ∀ n : String, ∀ d, read_configuration st2 n = Except.ok d →
      (∀ key ∈ requiredKeys, (lookupKey key d).isSome = true) ∧
      lookupKey n st2.yamlFiles = some d ∧
      ((st2.yamlFiles.map Prod.fst).Nodup →
        ∀ d2, (n, d2) ∈ st2.yamlFiles → d2 = d)) := by
  constructor
  · refine ⟨[("name", name), ("location", location), ("cluster", cluster),
      ("config", config), ("project", project)],
      write_configuration_lookup cm st project name location cluster config, ?_⟩
    intro key hk
    fin_cases hk <;> rfl
  · intro st2 n d h
    have he := read_configuration_ok_elim st2 n d h
    refine ⟨List.all_eq_true.mp he.2, he.1, ?_⟩
    intro hnd d2 hd2
    exact lookupKey_nodup_unique n d d2 st2.yamlFiles hnd he.1 hd2

/-- The store used in the C8 witness: one well-formed descriptor. -/
def stGood : ProcState :=
  ⟨[("ws", [("name", "ws"), ("location", "l"), ("cluster", "c"),
    ("config", "cfg"), ("project", "p")])], [], "/"⟩

/-- Witness for C8 at a concrete input: reading the stored descriptor
succeeds and the returned document holds all five required keys. -/
theorem descriptor_store_invariant_witness :
    read_configuration stGood "ws" =
      Except.ok [("name", "ws"), ("location", "l"), ("cluster", "c"),
        ("config", "cfg"), ("project", "p")] ∧
    ∀ key ∈ requiredKeys,
      (lookupKey key [("name", "ws"), ("location", "l"), ("cluster", "c"),
        ("config", "cfg"), ("project", "p")]).isSome = true :=
  ⟨rfl,
    ((descriptor_store_invariant ⟨"/home/u"⟩ ⟨[], [], "/"⟩ "p" "ws" "l" "c" "cfg").2
      stGood "ws"
      [("name", "ws"), ("location", "l"), ("cluster", "c"),
        ("config", "cfg"), ("project", "p")] rfl).1⟩

/-- Counterexample to C8 as stated: a descriptor written with an empty
project is stored and read back unchanged, so accepted descriptors may
have empty fields. -/
theorem descriptor_empty_field_accepted :
    read_configuration
      (write_configuration ⟨"/home/u"⟩ ⟨[], [], "/home/u"⟩ true "" "ws" "loc" "cl" "cfg").1
      "ws" =
      Except.ok [("name", "ws"), ("location", "loc"), ("cluster", "cl"),
        ("config", "cfg"), ("project", "")] ∧
    lookupKey "project" [("name", "ws"), ("location", "loc"), ("cluster", "cl"),
      ("config", "cfg"), ("project", "")] = some "" :=
  ⟨rfl, rfl⟩

/-- `delete_configuration` returns the untouched state and
`FileNotFoundError` when either of the two files is missing. -/
theorem delete_configuration_missing (st : ProcState) (name : String)
    (h : (lookupKey name st.configFiles).isNone = true ∨
      (lookupKey name st.yamlFiles).isNone = true) :
    delete_configuration st name =
      (st, Except.error (ConfigError.fileNotFound
        ("Configuration " ++ name ++ " not found"))) := by
  unfold delete_configuration
  rcases h with h | h
  · rw [if_pos h]
  · by_cases hc : (lookupKey name st.configFiles).isNone = true
    · rw [if_pos hc]
    · rw [if_neg hc, if_pos h]

/-- `delete_configuration` unlinks both files when both exist. -/
theorem delete_configuration_both (st : ProcState) (name : String)
    (hc : (lookupKey name st.configFiles).isSome = true)
    (hy : (lookupKey name st.yamlFiles).isSome = true) :
    delete_configuration st name =
      (⟨removeKey name st.yamlFiles, removeKey name st.configFiles, st.cwd⟩,
        Except.ok ()) := by
  have hc2 : ¬ ((lookupKey name st.configFiles).isNone = true) := by
    intro hcontra
    rw [Option.isNone_iff_eq_none] at hcontra
    rw [hcontra] at hc
    cases hc
  have hy2 : ¬ ((lookupKey name st.yamlFiles).isNone = true) := by
    intro hcontra
    rw [Option.isNone_iff_eq_none] at hcontra
    rw [hcontra] at hy
    cases hy
  unfold delete_configuration
  rw [if_neg hc2, if_neg hy2]

/-- C10: `delete_configuration` is atomic on error — when either file is
missing it raises `FileNotFoundError` without unlinking anything, and it
removes the two files only when both exist. -/
theorem delete_configuration_error_atomic (st : ProcState) (name : String) :
    ((lookupKey name st.configFiles).isNone = true ∨
        (lookupKey name st.yamlFiles).isNone = true →
      (delete_configuration st name).1 = st ∧
      (delete_configuration st name).2 =
        Except.error (ConfigError.fileNotFound
          ("Configuration " ++ name ++ " not found"))) ∧
    ((lookupKey name st.configFiles).isSome = true →
      (lookupKey name st.yamlFiles).isSome = true →
      (delete_configuration st name).2 = Except.ok () ∧
      lookupKey name (delete_configuration st name).1.configFiles = none ∧
      lookupKey name (delete_configuration st name).1.yamlFiles = none) := by
  constructor
  · intro h
    rw [delete_configuration_missing st name h]
    exact ⟨rfl, rfl⟩
  · intro hc hy
    rw [delete_configuration_both st name hc hy]
    exact ⟨rfl, lookupKey_removeKey_self name st.configFiles,
      lookupKey_removeKey_self name st.yamlFiles⟩

/-- The store used in the C10 witness: both files of `ws` exist. -/
def stBoth : ProcState :=
  ⟨[("ws", [("name", "ws"), ("location", "l"), ("cluster", "c"),
    ("config", "cfg"), ("project", "p")])], [("ws", "Host ws")], "/"⟩

/-- Witness for C10 at a concrete input: with both files present the
deletion succeeds and both lookups come back empty. -/
theorem delete_configuration_error_atomic_witness :
    (lookupKey "ws" stBoth.configFiles).isSome = true ∧
    (lookupKey "ws" stBoth.yamlFiles).isSome = true ∧
    ((delete_configuration stBoth "ws").2 = Except.ok () ∧
      lookupKey "ws" (delete_configuration stBoth "ws").1.configFiles = none ∧
      lookupKey "ws" (delete_configuration stBoth "ws").1.yamlFiles = none) :=
  ⟨rfl, rfl, (delete_configuration_error_atomic stBoth "ws").2 rfl rfl⟩

/-- C5 (amended): `delete_configuration` removes both the YAML descriptor
and the SSH stanza when both files exist, leaving other names untouched;
when either file is missing — including when the descriptor `name.yml`
exists but `name.config` does not — it fails with `FileNotFoundError` and
deletes nothing. -/
theorem delete_configuration_removes_both (st : ProcState) (name : String) :
    ((lookupKey name st.yamlFiles).isSome = true →
      (lookupKey name st.configFiles).isSome = true →
      (delete_configuration st name).2 = Except.ok () ∧
      lookupKey name (delete_configuration st name).1.yamlFiles = none ∧
      lookupKey name (delete_configuration st name).1.configFiles = none ∧
      (∀ m : String, m ≠ name →
        lookupKey m (delete_configuration st name).1.yamlFiles =
          lookupKey m st.yamlFiles ∧
        lookupKey m (delete_configuration st name).1.configFiles =
          lookupKey m st.configFiles)) ∧
    ((lookupKey name st.yamlFiles).isNone = true ∨
        (lookupKey name st.configFiles).isNone = true →
      delete_configuration st name =
        (st, Except.error (ConfigError.fileNotFound
          ("Configuration " ++ name ++ " not found")))) := by
  constructor
  · intro hy hc
    rw [delete_configuration_both st name hc hy]
    refine ⟨rfl, lookupKey_removeKey_self name st.yamlFiles,
      lookupKey_removeKey_self name st.configFiles, ?_⟩
    intro m hm
    exact ⟨lookupKey_removeKey_other name m st.yamlFiles hm,
      lookupKey_removeKey_other name m st.configFiles hm⟩
  · intro h
    exact delete_configuration_missing st name (Or.symm h)

/-- The store used in the C5 witness: both files of `ws1` exist, plus an
unrelated stanza for `ws2`. -/
def stBoth2 : ProcState :=
  ⟨[("ws1", [("name", "ws1"), ("location", "l"), ("cluster", "c"),
    ("config", "cfg"), ("project", "p")])],
    [("ws1", "Host ws1"), ("ws2", "Host ws2")], "/"⟩

/-- Witness for C5 (amended) at a concrete input: deleting `ws1` removes
both of its files and leaves the `ws2` stanza in place. -/
theorem delete_configuration_removes_both_witness :
    (lookupKey "ws1" stBoth2.yamlFiles).isSome = true ∧
    (lookupKey "ws1" stBoth2.configFiles).isSome = true ∧
    ((delete_configuration stBoth2 "ws1").2 = Except.ok () ∧
      lookupKey "ws1" (delete_configuration stBoth2 "ws1").1.yamlFiles = none ∧
      lookupKey "ws1" (delete_configuration stBoth2 "ws1").1.configFiles = none ∧
      (∀ m : String, m ≠ "ws1" →
        lookupKey m (delete_configuration stBoth2 "ws1").1.yamlFiles =
          lookupKey m stBoth2.yamlFiles ∧
        lookupKey m (delete_configuration stBoth2 "ws1").1.configFiles =
          lookupKey m stBoth2.configFiles)) :=
  ⟨rfl, rfl, (delete_configuration_removes_both stBoth2 "ws1").1 rfl rfl⟩

/-- The store used in the C5 counterexample: the YAML descriptor of `ws`
exists but its SSH stanza file does not. -/
def stYamlOnly : ProcState :=
  ⟨[("ws", [("name", "ws"), ("location", "l"), ("cluster", "c"),
    ("config", "cfg"), ("project", "p")])], [], "/"⟩

/-- Counterexample to C5 as stated: the descriptor `ws.yml` exists, yet
`delete_configuration` raises `FileNotFoundError` (because `ws.config` is
missing) and removes nothing, instead of removing both files. -/
theorem delete_configuration_yaml_only_error :
    (lookupKey "ws" stYamlOnly.yamlFiles).isSome = true ∧
    delete_configuration stYamlOnly "ws" =
      (stYamlOnly, Except.error (ConfigError.fileNotFound
        "Configuration ws not found")) ∧
    (lookupKey "ws" (delete_configuration stYamlOnly "ws").1.yamlFiles).isSome = true :=
  ⟨rfl, rfl, rfl⟩

/-- C9: `write_configuration` switches the working directory to the
configs directory and switches back only on a write failure; after a
successful write the process stays in the configs directory. -/
theorem write_configuration_cwd (cm : ConfigManager) (st : ProcState) (writeOk : Bool)
    (project name location cluster config : String) :
    (∀ path, (write_configuration cm st writeOk project name location cluster config).2 =
        Except.ok path →
      (write_configuration cm st writeOk project name location cluster config).1.cwd =
        cm.workstation_configs) ∧
    (∀ e, (write_configuration cm st writeOk project name location cluster config).2 =
        Except.error e →
      (write_configuration cm st writeOk project name location cluster config).1.cwd =
        st.cwd) ∧
    (writeOk = true →
      (write_configuration cm st writeOk project name location cluster config).2 =
        Except.ok (cm.workstation_configs ++ "/" ++ name ++ ".yml")) := by
  cases writeOk with
  | true =>
    refine ⟨fun _ _ => rfl, ?_, fun _ => rfl⟩
    intro e he
    cases he
  | false =>
    refine ⟨?_, fun _ _ => rfl, ?_⟩
    · intro path hp
      cases hp
    · intro h
      cases h

/-- Witness for C9 at a concrete input: after a successful write the
working directory is the configs directory, not the caller's. -/
theorem write_configuration_cwd_witness :
    (write_configuration ⟨"/home/u"⟩ ⟨[], [], "/tmp"⟩ true "p" "ws" "l" "c" "cfg").2 =
      Except.ok ("/home/u/.workstations/configs/ws.yml") ∧
    (write_configuration ⟨"/home/u"⟩ ⟨[], [], "/tmp"⟩ true "p" "ws" "l" "c" "cfg").1.cwd =
      ConfigManager.workstation_configs ⟨"/home/u"⟩ :=
  ⟨rfl,
    (write_configuration_cwd ⟨"/home/u"⟩ ⟨[], [], "/tmp"⟩ true "p" "ws" "l" "c" "cfg").1
      "/home/u/.workstations/configs/ws.yml" rfl⟩

/-- C7: `sync_files_workstation` runs its own port-allocation pass — a
20-attempt scan starting at 61000, a base different from the SSH-config
default base — raising `NoPortFree` exactly when all 20 candidates fail;
after spawning the tunnel it waits for the port to stop being bindable
for at most 10 one-second sleeps, then runs rsync and finally kills the
tunnel process, in that order. -/
theorem sync_files_workstation_lifecycle (free bindable : Nat → Bool)
    (project name location cluster config source destination : String) :
    (sync_files_workstation free bindable project name location cluster config
        source destination =
        Except.error (ConfigError.noPortFree
          "Could not find a free port after checking 20 ports.") ↔
      ∀ i, i < 20 → free (61000 + i) = false) ∧
    (∀ r, sync_files_workstation free bindable project name location cluster config
        source destination = Except.ok r →
      findFreePort free 20 61000 = some r.port ∧
      r.sleeps = syncWait bindable ∧
      r.sleeps ≤ 10 ∧
      r.events = [SyncEvent.spawnTunnel r.port, SyncEvent.waitReady r.sleeps,
        SyncEvent.runRsync r.port, SyncEvent.killTunnel]) ∧
    sshBasePort [] ≠ 61000 := by
  refine ⟨?_, ?_, by decide⟩
  · cases hf : findFreePort free 20 61000 with
    | none =>
      have hw : sync_files_workstation free bindable project name location cluster
          config source destination =
          Except.error (ConfigError.noPortFree
            "Could not find a free port after checking 20 ports.") := by
        unfold sync_files_workstation; rw [hf]
      rw [hw]
      simp only [true_iff]
      exact (findFreePort_eq_none_iff free 20 61000).mp hf
    | some p =>
      have hw : sync_files_workstation free bindable project name location cluster
          config source destination =
          Except.ok ⟨p, syncWait bindable,
            [SyncEvent.spawnTunnel p, SyncEvent.waitReady (syncWait bindable),
              SyncEvent.runRsync p, SyncEvent.killTunnel]⟩ := by
        unfold sync_files_workstation; rw [hf]
      rw [hw]
      constructor
      · intro hcontra; cases hcontra
      · intro hall
        have := (findFreePort_eq_none_iff free 20 61000).mpr hall
        rw [hf] at this; cases this
  · intro r h
    cases hf : findFreePort free 20 61000 with
    | none =>
      have hw : sync_files_workstation free bindable project name location cluster
          config source destination =
          Except.error (ConfigError.noPortFree
            "Could not find a free port after checking 20 ports.") := by
        unfold sync_files_workstation; rw [hf]
      rw [hw] at h; cases h
    | some p =>
      have hw : sync_files_workstation free bindable project name location cluster
          config source destination =
          Except.ok ⟨p, syncWait bindable,
            [SyncEvent.spawnTunnel p, SyncEvent.waitReady (syncWait bindable),
              SyncEvent.runRsync p, SyncEvent.killTunnel]⟩ := by
        unfold sync_files_workstation; rw [hf]
      rw [hw] at h
      cases h
      exact ⟨rfl, rfl, syncWaitGo_le bindable 11 0 (by omega), rfl⟩

/-- Witness for C7 at a concrete input: with every port free and the
tunnel port becoming unbindable at once, the sync allocates 61000,
sleeps zero times, and runs spawn, wait, rsync, kill in order. -/
theorem sync_files_workstation_lifecycle_witness :
    sync_files_workstation (fun _ => true) (fun _ => false) "p" "ws" "l" "c" "cfg"
      "src" "dst" =
      Except.ok ⟨61000, 0, [SyncEvent.spawnTunnel 61000, SyncEvent.waitReady 0,
        SyncEvent.runRsync 61000, SyncEvent.killTunnel]⟩ ∧
    (findFreePort (fun _ => true) 20 61000 = some 61000 ∧
      (0 : Nat) = syncWait (fun _ => false) ∧
      (0 : Nat) ≤ 10 ∧
      [SyncEvent.spawnTunnel 61000, SyncEvent.waitReady 0,
        SyncEvent.runRsync 61000, SyncEvent.killTunnel] =
        [SyncEvent.spawnTunnel 61000, SyncEvent.waitReady 0,
          SyncEvent.runRsync 61000, SyncEvent.killTunnel]) :=
  ⟨rfl,
    (sync_files_workstation_lifecycle (fun _ => true) (fun _ => false)
      "p" "ws" "l" "c" "cfg" "src" "dst").2.1
      ⟨61000, 0, [SyncEvent.spawnTunnel 61000, SyncEvent.waitReady 0,
        SyncEvent.runRsync 61000, SyncEvent.killTunnel]⟩ rfl⟩

set_option maxRecDepth 20000 in
/-- C6: every stanza emitted by a successful `write_ssh_config` contains
the `Host <name>` line, a `Port` line carrying the allocated port, and a
`ProxyCommand` whose tunnel invocation references the given project,
cluster, config and region; the embedded shell script polls the local
port in a sleep loop counting its timeout variable down from 10 and
exits non-zero when the port never becomes reachable. -/
theorem write_ssh_config_stanza (ports : List Nat) (free : Nat → Bool)
    (name user project cluster config region : String) (pc : Nat × String)
    (h : write_ssh_config ports free name user project cluster config region =
      Except.ok pc) :
    strContains pc.2 ("Host " ++ name) ∧
    strContains pc.2 ("Port " ++ Nat.repr pc.1) ∧
    strContains pc.2
      ("ProxyCommand " ++ proxy_command project cluster config region) ∧
    strContains (proxy_command project cluster config region)
      ("--project=" ++ project ++ " ") ∧
    strContains (proxy_command project cluster config region)
      ("--cluster=" ++ cluster ++ " ") ∧
    strContains (proxy_command project cluster config region)
      ("--config=" ++ config ++ " ") ∧
    strContains (proxy_command project cluster config region)
      ("--region=" ++ region ++ " ") ∧
    strContains (proxy_command project cluster config region)
      ("timeout=10; while ! nc -z localhost %p; do sleep 1; timeout=$((timeout - 1)); if [ $timeout -le 0 ]; then exit 1; fi; done; ") ∧
    (∀ reach : Nat → Bool, (∀ t, reach t = false) → proxyWait reach = false) := by
  obtain ⟨hf, hpc⟩ :=
    write_ssh_config_ok_elim ports free name user project cluster config region pc h
  have hc : pc.2 = sshConfigContent name user pc.1
      (proxy_command project cluster config region) := congrArg Prod.snd hpc
  rw [hc]
  refine ⟨?_, ?_, ?_, ?_, ?_, ?_, ?_, ?_, ?_⟩
  · refine ⟨"", "\n    HostName " ++ name ++ "\n    Port " ++ Nat.repr pc.1 ++
      "\n    User " ++ user ++
      "\n    StrictHostKeyChecking no\n    UserKnownHostsFile /dev/null\n    ControlMaster auto\n    ControlPersist 30m\n    ControlPath ~/.ssh/cm/%r@%h:%p\n    ProxyCommand " ++
      proxy_command project cluster config region, ?_⟩
    apply String.ext
    simp only [sshConfigContent, String.data_append, List.append_assoc]
    rfl
  · refine ⟨"Host " ++ name ++ "\n    HostName " ++ name ++ "\n    ",
      "\n    User " ++ user ++
      "\n    StrictHostKeyChecking no\n    UserKnownHostsFile /dev/null\n    ControlMaster auto\n    ControlPersist 30m\n    ControlPath ~/.ssh/cm/%r@%h:%p\n    ProxyCommand " ++
      proxy_command project cluster config region, ?_⟩
    apply String.ext
    simp only [sshConfigContent, String.data_append, List.append_assoc]
    rfl
  · refine ⟨"Host " ++ name ++ "\n    HostName " ++ name ++ "\n    Port " ++
      Nat.repr pc.1 ++ "\n    User " ++ user ++
      "\n    StrictHostKeyChecking no\n    UserKnownHostsFile /dev/null\n    ControlMaster auto\n    ControlPersist 30m\n    ControlPath ~/.ssh/cm/%r@%h:%p\n    ",
      "", ?_⟩
    apply String.ext
    simp only [sshConfigContent, String.data_append, List.append_assoc,
      List.append_nil]
    rfl
  · refine ⟨"sh -c \x27cleanup() \x7b pkill -P $$; \x7d; trap cleanup EXIT; gcloud workstations start-tcp-tunnel ",
      "--cluster=" ++ cluster ++ " " ++ "--config=" ++ config ++ " " ++
      "--region=" ++ region ++ " " ++
      "--local-host-port=localhost:%p %h 22 & timeout=10; while ! nc -z localhost %p; do sleep 1; timeout=$((timeout - 1)); if [ $timeout -le 0 ]; then exit 1; fi; done; nc localhost %p\x27", ?_⟩
    apply String.ext
    simp only [proxy_command, String.data_append, List.append_assoc]
    rfl
  · refine ⟨"sh -c \x27cleanup() \x7b pkill -P $$; \x7d; trap cleanup EXIT; gcloud workstations start-tcp-tunnel --project=" ++
      project ++ " ",
      "--config=" ++ config ++ " " ++ "--region=" ++ region ++ " " ++
      "--local-host-port=localhost:%p %h 22 & timeout=10; while ! nc -z localhost %p; do sleep 1; timeout=$((timeout - 1)); if [ $timeout -le 0 ]; then exit 1; fi; done; nc localhost %p\x27", ?_⟩
    apply String.ext
    simp only [proxy_command, String.data_append, List.append_assoc]
    rfl
  · refine ⟨"sh -c \x27cleanup() \x7b pkill -P $$; \x7d; trap cleanup EXIT; gcloud workstations start-tcp-tunnel --project=" ++
      project ++ " --cluster=" ++ cluster ++ " ",
      "--region=" ++ region ++ " " ++
      "--local-host-port=localhost:%p %h 22 & timeout=10; while ! nc -z localhost %p; do sleep 1; timeout=$((timeout - 1)); if [ $timeout -le 0 ]; then exit 1; fi; done; nc localhost %p\x27", ?_⟩
    apply String.ext
    simp only [proxy_command, String.data_append, List.append_assoc]
    rfl
  · refine ⟨"sh -c \x27cleanup() \x7b pkill -P $$; \x7d; trap cleanup EXIT; gcloud workstations start-tcp-tunnel --project=" ++
      project ++ " --cluster=" ++ cluster ++ " --config=" ++ config ++ " ",
      "--local-host-port=localhost:%p %h 22 & timeout=10; while ! nc -z localhost %p; do sleep 1; timeout=$((timeout - 1)); if [ $timeout -le 0 ]; then exit 1; fi; done; nc localhost %p\x27", ?_⟩
    apply String.ext
    simp only [proxy_command, String.data_append, List.append_assoc]
    rfl
  · refine ⟨"sh -c \x27cleanup() \x7b pkill -P $$; \x7d; trap cleanup EXIT; gcloud workstations start-tcp-tunnel --project=" ++
      project ++ " --cluster=" ++ cluster ++ " --config=" ++ config ++ " --region=" ++
      region ++ " --local-host-port=localhost:%p %h 22 & ",
      "nc localhost %p\x27", ?_⟩
    apply String.ext
    simp only [proxy_command, String.data_append, List.append_assoc]
    rfl
  · intro reach hr
    exact proxyWaitGo_false reach 10 0 hr

/-- Witness for C6 at a concrete input: the stanza written for `ws1` on
an empty store with every port free contains its `Host` line. -/
theorem write_ssh_config_stanza_witness :
    write_ssh_config [] (fun _ => true) "ws1" "u" "p" "c" "cfg" "us-central1" =
      Except.ok (6000, sshConfigContent "ws1" "u" 6000
        (proxy_command "p" "c" "cfg" "us-central1")) ∧
    strContains (6000, sshConfigContent "ws1" "u" 6000
      (proxy_command "p" "c" "cfg" "us-central1")).2 ("Host " ++ "ws1") :=
  ⟨rfl,
    (write_ssh_config_stanza [] (fun _ => true) "ws1" "u" "p" "c" "cfg" "us-central1"
      (6000, sshConfigContent "ws1" "u" 6000
        (proxy_command "p" "c" "cfg" "us-central1")) rfl).1⟩
